import Mathlib

/-!
# Verification of the Yandex.Disk public-folder browser (src/app.py)

A shallow embedding of `src/app.py` and proofs about its behaviour.

The program is a small Flask app with three pieces:

* `get_public_resources` (app.py lines 15-37): calls the remote listing
  endpoint, returns the parsed JSON dict on success and `None` on a caught
  `RequestException`; note that when `requests.get` itself raises, the local
  variable `response` is unbound and line 35 of the `except` handler raises
  `UnboundLocalError`, which escapes the function.
* the `/files` handler `files` (lines 81-113): checks the `public_key`
  parameter, fetches the listing, extracts `_embedded.items` with empty
  defaults, applies the optional category filter (lines 101-111), and renders.
* `get_download_href` (lines 40-64) and the `/download` handler `download`
  (lines 116-140): parameter presence check, href lookup, then the byte fetch.

Python dynamic values are modelled by an inductive `Json` type; Python dicts
are association lists; `dict.get` with and without a default is modelled by
`jGet` / `jGetD`; Python truthiness by `Json.truthy`.  Exceptions escaping a
function are modelled with `Except String`, the error string naming the
exception class.  The network is abstracted as an `HttpOutcome` oracle passed
to each handler, and `download` additionally returns the list of outbound
network calls it performed, so that claims about calls never being issued are
expressible.
-/

/-- A Python/JSON dynamic value, as produced by `response.json()`. -/
inductive Json where
  | null
  | bool (b : Bool)
  | num (n : Int)
  | str (s : String)
  | arr (items : List Json)
  | obj (fields : List (String × Json))

/-- An item of the listing, once known to be a dict: its field list. -/
def Entry : Type := List (String × Json)

/-- Python `==` between a dynamic value and a string literal: true exactly
when the value is that string (no other JSON value compares equal to a
string in Python). -/
def pyEqStr (v : Json) (s : String) : Bool :=
  match v with
  | .str t => t == s
  | _ => false

/-- Python `v in l` for a list of string literals: elementwise `==`. -/
def pyInStrs (v : Json) (l : List String) : Bool :=
  l.any (fun s => pyEqStr v s)

/-- Python `d[k]` lookup returning an `Option`: `d.get(k)` is `jGet`,
`d.get(k, dflt)` is `jGetD`.  First binding wins (Python dicts have unique
keys, so an association list read left to right is faithful). -/
def jLookup (d : List (String × Json)) (k : String) : Option Json :=
  match d.find? (fun p => p.1 == k) with
  | some p => some p.2
  | none => none

/-- Python `d.get(k)`: the value, or `None` when the key is absent. -/
def jGet (d : List (String × Json)) (k : String) : Json :=
  match jLookup d k with
  | some v => v
  | none => Json.null

/-- Python `d.get(k, dflt)`. -/
def jGetD (d : List (String × Json)) (k : String) (dflt : Json) : Json :=
  match jLookup d k with
  | some v => v
  | none => dflt

/-- Python truthiness of a JSON value: `None`, `False`, `0`, `""`, `[]` and
`{}` are falsy, everything else is truthy. -/
def Json.truthy : Json → Bool
  | .null => false
  | .bool b => b
  | .num n => n != 0
  | .str s => s != ""
  | .arr items => !items.isEmpty
  | .obj fields => !fields.isEmpty

/-- Truthiness of an `Optional[...]` Python value (`None` or a JSON value). -/
def optJsonTruthy : Option Json → Bool
  | none => false
  | some v => v.truthy

/-- Truthiness of `request.args.get(...)`: `None` or a string. -/
def optStrTruthy : Option String → Bool
  | none => false
  | some s => s != ""

/-- The document extensions of app.py line 105 (`doc_types`). -/
def doc_types : List String :=
  ["doc", "docx", "pdf", "txt", "xls", "xlsx", "ppt", "pptx"]

/-- The image extensions of app.py line 109 (`img_types`). -/
def img_types : List String :=
  ["jpg", "jpeg", "png", "gif", "bmp"]

/-- `item.get('file', {}).get('extension')` (app.py lines 107/111).  `none`
models the `AttributeError` raised when the `file` field holds a non-dict
value (for example an explicit `null`); otherwise the extension value, with
`Json.null` for an absent key, exactly as `dict.get` behaves. -/
def fileExtension (item : Entry) : Option Json :=
  match jGetD item "file" (Json.obj []) with
  | Json.obj fields => some (jGet fields "extension")
  | _ => none

/-- The comprehension predicate of lines 106-107 / 110-111:
`item.get('type') == 'file' and item.get('file', {}).get('extension') in exts`.
`none` models an exception escaping the predicate; the `and` short-circuits,
so a non-`file` entry never evaluates the extension. -/
def extPred (exts : List String) (item : Entry) : Option Bool :=
  if pyEqStr (jGet item "type") "file" then
    (fileExtension item).map (fun e => pyInStrs e exts)
  else
    some false

/-- A Python list comprehension `[x for x in l if p x]` whose predicate may
raise (`p x = none`): the whole comprehension raises, otherwise it keeps, in
order, the elements on which the predicate is true. -/
def pyFilter (p : Entry → Option Bool) : List Entry → Option (List Entry)
  | [] => some []
  | x :: xs =>
    match p x, pyFilter p xs with
    | some b, some rest => some (if b then x :: rest else rest)
    | _, _ => none

/-- The filter stage of the `/files` handler, app.py lines 101-111: given the
`items` list (each item a dict) and the `filter` query parameter, narrow the
list.  `none` models an exception escaping the handler. -/
def filterItems (items : List Entry) (filter_type : String) : Option (List Entry) :=
  if filter_type = "folder" then
    some (items.filter (fun item => pyEqStr (jGet item "type") "dir"))
  else if filter_type = "document" then
    pyFilter (extPred doc_types) items
  else if filter_type = "image" then
    pyFilter (extPred img_types) items
  else
    some items

/-- The outcome of one outbound `requests.get` call: either the transport
itself fails (`requests.get` raises a `RequestException` — connection error,
timeout — before a response object exists), or a response arrives with a
status code and a parsed JSON body. -/
inductive HttpOutcome where
  | transportError
  | success (status : Nat) (body : Json)

/-- `response.raise_for_status()` raises `HTTPError` exactly for status codes
in 400..599. -/
def raiseForStatus (status : Nat) : Bool :=
  400 ≤ status && status < 600

/-- `get_public_resources` (app.py lines 15-37), as a function of the outcome
of its single `requests.get` call.  Normal return is an `Optional[dict]`
(`Except.ok`): the parsed body on success, `None` when `raise_for_status`
raised and the handler fell through to `return None`.  `Except.error` models
an exception escaping the function: when `requests.get` itself raises, the
`except` handler's line 35 `if response is not None` reads the unassigned
local `response` and raises `UnboundLocalError`. -/
def get_public_resources (outcome : HttpOutcome) : Except String (Option Json) :=
  match outcome with
  | .transportError => Except.error "UnboundLocalError"
  | .success status body =>
    if raiseForStatus status then Except.ok none
    else Except.ok (some body)

/-- What the `/files` handler (app.py lines 81-113) replies with:
a redirect to `/` carrying a flash of the given category, a normal render of
`files.html` with the given `items` value, or an exception escaping the
handler (Flask turns it into a 500 error page). -/
inductive FilesResult where
  | redirectIndex (flashCategory : String)
  | render (items : Json)
  | serverError (exc : String)

/-- Interpret the extracted `items` JSON value as a list of dict entries, as
the filter comprehensions require: `none` models the exception raised when
`items` is not a list or an element is not a dict (`item.get` would fail). -/
def entriesOfJson : Json → Option (List Entry)
  | Json.arr xs =>
    xs.mapM (fun j => match j with
      | Json.obj fields => some (fields : Entry)
      | _ => none)
  | _ => none

/-- The `/files` handler (app.py lines 81-113).  `public_key`, `path` and
`filter_type` are the query parameters (`request.args.get`); `outcome` is the
result of the listing call issued by `get_public_resources`.  Mirrors the
source line by line: the `not public_key` guard (line 90), the `not
resources` guard (line 95, Python truthiness: `None` and the empty dict both
fail it), the `resources.get('_embedded', {}).get('items', [])` extraction
(line 99), the category filter (lines 101-111) and the final render
(line 113).  The unused `path` parameter is forwarded to the remote call in
the source and does not influence control flow. -/
def files (public_key : Option String) (path filter_type : String)
    (outcome : HttpOutcome) : FilesResult :=
  let _ := path
  if !optStrTruthy public_key then
    FilesResult.redirectIndex "danger"
  else
    match get_public_resources outcome with
    | Except.error exc => FilesResult.serverError exc
    | Except.ok resources =>
      if !optJsonTruthy resources then
        FilesResult.redirectIndex "danger"
      else
        match resources with
        | none => FilesResult.redirectIndex "danger"
        | some body =>
          match body with
          | Json.obj fields =>
            match jGetD fields "_embedded" (Json.obj []) with
            | Json.obj embeddedFields =>
              let itemsJson := jGetD embeddedFields "items" (Json.arr [])
              if filter_type = "folder" ∨ filter_type = "document"
                  ∨ filter_type = "image" then
                match entriesOfJson itemsJson with
                | none => FilesResult.serverError "TypeError"
                | some entries =>
                  match filterItems entries filter_type with
                  | none => FilesResult.serverError "AttributeError"
                  | some kept =>
                    FilesResult.render (Json.arr (kept.map Json.obj))
              else
                FilesResult.render itemsJson
            | _ => FilesResult.serverError "AttributeError"
          | _ => FilesResult.serverError "AttributeError"

/-- `get_download_href` (app.py lines 40-64), as a function of the outcome of
its `requests.get` call.  Normal return (`Except.ok`) is the value of
`data.get('href')` — `Json.null` both when the key is absent and when the
call failed with a caught `RequestException` and the handler returned `None`.
`Except.error` models an escaping exception: `UnboundLocalError` from line 62
when `requests.get` itself raises (same slip as in `get_public_resources`),
`AttributeError` when the parsed body is not a dict. -/
def get_download_href (outcome : HttpOutcome) : Except String Json :=
  match outcome with
  | .transportError => Except.error "UnboundLocalError"
  | .success status body =>
    if raiseForStatus status then Except.ok Json.null
    else
      match body with
      | Json.obj fields => Except.ok (jGet fields "href")
      | _ => Except.error "AttributeError"

/-- One outbound network call made by the `/download` handler: the
"get download href" API call, or the byte fetch at the returned href. -/
inductive NetCall where
  | hrefCall
  | byteCall
deriving DecidableEq

/-- What the `/download` handler replies with: a redirect back to `/files`
carrying a flash of the given category, a successful `send_file` attachment
labelled with the caller-supplied name, or an exception escaping the handler. -/
inductive DownloadResult where
  | redirectFiles (flashCategory : String)
  | sendFile (downloadName : String)
  | serverError (exc : String)

/-- The `/download` handler (app.py lines 116-140), paired with the list of
outbound network calls it performs, in order.  `hrefOutcome` is the outcome
of the call inside `get_download_href`, `byteOutcome` that of the byte fetch
`requests.get(href)`.  Mirrors the source: the `not all([public_key, path,
name])` guard (line 125) rejects before any call; a falsy href (line 130)
redirects after only the href call; the byte fetch's `RequestException`
(transport failure or `raise_for_status`) is caught and flashed (lines
138-140). -/
def download (public_key path name : Option String)
    (hrefOutcome byteOutcome : HttpOutcome) : DownloadResult × List NetCall :=
  if !(optStrTruthy public_key && optStrTruthy path && optStrTruthy name) then
    (DownloadResult.redirectFiles "danger", [])
  else
    match get_download_href hrefOutcome with
    | Except.error exc => (DownloadResult.serverError exc, [NetCall.hrefCall])
    | Except.ok href =>
      if !href.truthy then
        (DownloadResult.redirectFiles "danger", [NetCall.hrefCall])
      else
        match byteOutcome with
        | .transportError =>
          (DownloadResult.redirectFiles "danger", [NetCall.hrefCall, NetCall.byteCall])
        | .success status _ =>
          if raiseForStatus status then
            (DownloadResult.redirectFiles "danger", [NetCall.hrefCall, NetCall.byteCall])
          else
            (DownloadResult.sendFile (name.getD ""), [NetCall.hrefCall, NetCall.byteCall])

/-- A folder entry as in the spec's scenario listing. -/
def sampleDir : Entry :=
  [("type", Json.str "dir"), ("name", Json.str "Photos")]

/-- A pdf file entry as in the spec's scenario listing. -/
def samplePdf : Entry :=
  [("type", Json.str "file"), ("name", Json.str "a.pdf"),
   ("file", Json.obj [("extension", Json.str "pdf")])]

/-- C2 helper: `pyEqStr` decides propositional equality with a string value. -/
theorem pyEqStr_iff (v : Json) (s : String) :
    pyEqStr v s = true ↔ v = Json.str s := by
  cases v <;> simp [pyEqStr]

/-- C2 helper: Python `in` over a string list, characterised. -/
theorem pyInStrs_eq_true_iff (v : Json) (l : List String) :
    pyInStrs v l = true ↔ ∃ s, s ∈ l ∧ v = Json.str s := by
  unfold pyInStrs
  rw [List.any_eq_true]
  constructor
  · rintro ⟨s, hs, hp⟩
    exact ⟨s, hs, (pyEqStr_iff _ _).mp hp⟩
  · rintro ⟨s, hs, hv⟩
    exact ⟨s, hs, (pyEqStr_iff _ _).mpr hv⟩

/-- Branch lemma: the folder arm of the filter stage. -/
theorem filterItems_folder (items : List Entry) :
    filterItems items "folder" =
      some (items.filter (fun item => pyEqStr (jGet item "type") "dir")) := by
  unfold filterItems
  rw [if_pos rfl]
  rfl

/-- Branch lemma: the document arm of the filter stage. -/
theorem filterItems_document (items : List Entry) :
    filterItems items "document" = pyFilter (extPred doc_types) items := by
  unfold filterItems
  rw [if_neg (by decide), if_pos rfl]

/-- Branch lemma: the image arm of the filter stage. -/
theorem filterItems_image (items : List Entry) :
    filterItems items "image" = pyFilter (extPred img_types) items := by
  unfold filterItems
  rw [if_neg (by decide), if_neg (by decide), if_pos rfl]

/-- A successful comprehension yields a sublist of its input. -/
theorem pyFilter_sublist (p : Entry → Option Bool) (l : List Entry) :
    ∀ r, pyFilter p l = some r → r.Sublist l := by
  induction l with
  | nil =>
    intro r h
    simp [pyFilter] at h
    simp [← h]
  | cons x xs ih =>
    intro r h
    cases hp : p x with
    | none => simp [pyFilter, hp] at h
    | some b =>
      cases hrest : pyFilter p xs with
      | none => simp [pyFilter, hp, hrest] at h
      | some rest =>
        simp [pyFilter, hp, hrest] at h
        cases b with
        | true =>
          simp at h
          rw [← h]
          exact List.Sublist.cons₂ x (ih rest hrest)
        | false =>
          simp at h
          rw [← h]
          exact List.Sublist.cons x (ih rest hrest)

/-- Every element of a successful comprehension's output satisfies the
predicate (with value `some true`). -/
theorem pyFilter_pred_of_mem (p : Entry → Option Bool) (l : List Entry) :
    ∀ r, pyFilter p l = some r → ∀ x ∈ r, p x = some true := by
  induction l with
  | nil =>
    intro r h x hx
    simp [pyFilter] at h
    subst h
    simp at hx
  | cons y ys ih =>
    intro r h x hx
    cases hp : p y with
    | none => simp [pyFilter, hp] at h
    | some b =>
      cases hrest : pyFilter p ys with
      | none => simp [pyFilter, hp, hrest] at h
      | some rest =>
        simp [pyFilter, hp, hrest] at h
        cases b with
        | true =>
          simp at h
          rw [← h] at hx
          rcases List.mem_cons.mp hx with hxy | hxr
          · rw [hxy]; exact hp
          · exact ih rest hrest x hxr
        | false =>
          simp at h
          rw [← h] at hx
          exact ih rest hrest x hx

/-- Every input element satisfying the predicate is kept by a successful
comprehension. -/
theorem pyFilter_mem_of_pred (p : Entry → Option Bool) (l : List Entry) :
    ∀ r, pyFilter p l = some r → ∀ x ∈ l, p x = some true → x ∈ r := by
  induction l with
  | nil =>
    intro r _ x hx
    simp at hx
  | cons y ys ih =>
    intro r h x hx hpx
    cases hp : p y with
    | none => simp [pyFilter, hp] at h
    | some b =>
      cases hrest : pyFilter p ys with
      | none => simp [pyFilter, hp, hrest] at h
      | some rest =>
        simp [pyFilter, hp, hrest] at h
        rcases List.mem_cons.mp hx with hxy | hxm
        · have hb : b = true := by
            rw [hxy] at hpx
            rw [hpx] at hp
            exact (Option.some.inj hp).symm
          rw [hb] at h
          simp at h
          rw [← h]
          rw [hxy]
          exact List.mem_cons_self y rest
        · have hmem : x ∈ rest := ih rest hrest x hxm hpx
          cases b with
          | true =>
            simp at h
            rw [← h]
            exact List.mem_cons_of_mem y hmem
          | false =>
            simp at h
            rw [← h]
            exact hmem

/-- A comprehension over a list on which the predicate is everywhere
`some true` returns the list itself. -/
theorem pyFilter_of_all_true (p : Entry → Option Bool) (l : List Entry)
    (h : ∀ x ∈ l, p x = some true) : pyFilter p l = some l := by
  induction l with
  | nil => rfl
  | cons x xs ih =>
    have hx := h x (List.mem_cons_self x xs)
    have hxs := ih (fun y hy => h y (List.mem_cons_of_mem x hy))
    simp [pyFilter, hx, hxs]

/-- `List.filter` with the same predicate twice equals one application. -/
theorem filter_self_idem {α : Type} (p : α → Bool) (l : List α) :
    (l.filter p).filter p = l.filter p := by
  induction l with
  | nil => rfl
  | cons x xs ih =>
    cases hp : p x <;> simp [List.filter_cons, hp, ih]

/-- The document/image predicate at value `some true`, characterised in terms
of the entry's fields. -/
theorem extPred_eq_some_true_iff (exts : List String) (item : Entry) :
    extPred exts item = some true ↔
      jGet item "type" = Json.str "file" ∧
      ∃ s, s ∈ exts ∧ fileExtension item = some (Json.str s) := by
  unfold extPred
  by_cases ht : pyEqStr (jGet item "type") "file" = true
  · rw [if_pos ht]
    rw [pyEqStr_iff] at ht
    simp only [ht, true_and]
    cases hfe : fileExtension item with
    | none => simp
    | some e =>
      simp only [Option.map_some']
      rw [Option.some_inj]
      rw [pyInStrs_eq_true_iff]
      constructor
      · rintro ⟨s, hs, he⟩
        exact ⟨s, hs, by rw [he]⟩
      · rintro ⟨s, hs, he⟩
        exact ⟨s, hs, Option.some.inj he⟩
  · rw [if_neg ht]
    constructor
    · intro h
      simp at h
    · rintro ⟨h1, _⟩
      exact absurd ((pyEqStr_iff _ _).mpr h1) ht

/-- The filter stage maps the empty list to the empty list, whatever the
category. -/
theorem filterItems_nil (filter_type : String) :
    filterItems [] filter_type = some [] := by
  unfold filterItems
  split_ifs <;> simp [pyFilter]

/-- C6: for every entry list, `filter(entries, "folder")` is a subset (in
fact an order-preserving sublist) of the input, and every element of the
result has `type == "dir"`. -/
theorem folder_filter_subset_and_dir (entries : List Entry) :
    ∃ kept, filterItems entries "folder" = some kept ∧
      kept.Sublist entries ∧
      ∀ item ∈ kept, jGet item "type" = Json.str "dir" := by
  refine ⟨_, filterItems_folder entries, List.filter_sublist entries, ?_⟩
  intro item hmem
  exact (pyEqStr_iff _ _).mp (List.mem_filter.mp hmem).2

/-- C8: filtering with an empty or unrecognized category (anything other
than "folder", "document", "image") returns the full list unchanged. -/
theorem unrecognized_filter_identity (entries : List Entry) (cat : String)
    (h1 : cat ≠ "folder") (h2 : cat ≠ "document") (h3 : cat ≠ "image") :
    filterItems entries cat = some entries := by
  unfold filterItems
  rw [if_neg h1, if_neg h2, if_neg h3]

/-- C8 witness: the empty category leaves a two-entry list unchanged. -/
theorem unrecognized_filter_identity_witness :
    filterItems [sampleDir, samplePdf] "" = some [sampleDir, samplePdf] :=
  unrecognized_filter_identity [sampleDir, samplePdf] ""
    (by decide) (by decide) (by decide)

/-- C10: every category produces an order-preserving subsequence of its
input: whenever the filter stage completes with result `kept`, `kept` is a
sublist of `entries` (original relative order, no duplication, no new
entries). -/
theorem filter_result_sublist (entries kept : List Entry) (cat : String)
    (h : filterItems entries cat = some kept) : kept.Sublist entries := by
  unfold filterItems at h
  by_cases h1 : cat = "folder"
  · rw [if_pos h1] at h
    simp at h
    rw [← h]
    exact List.filter_sublist entries
  · rw [if_neg h1] at h
    by_cases h2 : cat = "document"
    · rw [if_pos h2] at h
      exact pyFilter_sublist _ _ _ h
    · rw [if_neg h2] at h
      by_cases h3 : cat = "image"
      · rw [if_pos h3] at h
        exact pyFilter_sublist _ _ _ h
      · rw [if_neg h3] at h
        simp at h
        rw [← h]

/-- C10 witness: the folder filter on the scenario listing keeps the single
folder entry, an order-preserving subsequence of the input. -/
theorem filter_result_sublist_witness :
    List.Sublist [sampleDir] [sampleDir, samplePdf] :=
  filter_result_sublist [sampleDir, samplePdf] [sampleDir] "folder" (by rfl)

/-- C7: filtering is idempotent: whenever the filter stage completes with
result `kept`, filtering `kept` again with the same category completes and
returns `kept`, for every category string. -/
theorem filter_idempotent (entries kept : List Entry) (cat : String)
    (h : filterItems entries cat = some kept) :
    filterItems kept cat = some kept := by
  by_cases h1 : cat = "folder"
  · subst h1
    rw [filterItems_folder] at h
    rw [filterItems_folder]
    simp at h
    rw [← h]
    rw [filter_self_idem]
  · by_cases h2 : cat = "document"
    · subst h2
      rw [filterItems_document] at h
      rw [filterItems_document]
      exact pyFilter_of_all_true _ _ (pyFilter_pred_of_mem _ _ _ h)
    · by_cases h3 : cat = "image"
      · subst h3
        rw [filterItems_image] at h
        rw [filterItems_image]
        exact pyFilter_of_all_true _ _ (pyFilter_pred_of_mem _ _ _ h)
      · rw [unrecognized_filter_identity entries cat h1 h2 h3] at h
        simp at h
        rw [← h]
        exact unrecognized_filter_identity entries cat h1 h2 h3

/-- C7 witness: the document filter applied twice to the scenario listing
agrees with one application. -/
theorem filter_idempotent_witness :
    filterItems [samplePdf] "document" = some [samplePdf] :=
  filter_idempotent [sampleDir, samplePdf] [samplePdf] "document" (by rfl)

/-- C2: whenever the document filter completes, its result keeps exactly the
entries whose `type` is the string "file" and whose extension value is one of
the eight document extension strings, compared exactly (case-sensitively, no
normalization): every kept entry satisfies the predicate, and every input
entry satisfying it is kept. -/
theorem document_filter_exact (entries kept : List Entry)
    (h : filterItems entries "document" = some kept) :
    (∀ item ∈ kept, jGet item "type" = Json.str "file" ∧
       ∃ s, s ∈ doc_types ∧ fileExtension item = some (Json.str s)) ∧
    (∀ item ∈ entries,
       (jGet item "type" = Json.str "file" ∧
        ∃ s, s ∈ doc_types ∧ fileExtension item = some (Json.str s)) →
       item ∈ kept) := by
  rw [filterItems_document] at h
  constructor
  · intro item hmem
    exact (extPred_eq_some_true_iff _ _).mp
      (pyFilter_pred_of_mem _ _ _ h item hmem)
  · intro item hmem hprop
    exact pyFilter_mem_of_pred _ _ _ h item hmem
      ((extPred_eq_some_true_iff _ _).mpr hprop)

/-- C2 witness: on the scenario listing the document filter keeps exactly the
pdf entry; both directions of the characterisation hold there. -/
theorem document_filter_exact_witness :
    (∀ item ∈ [samplePdf], jGet item "type" = Json.str "file" ∧
       ∃ s, s ∈ doc_types ∧ fileExtension item = some (Json.str s)) ∧
    (∀ item ∈ [sampleDir, samplePdf],
       (jGet item "type" = Json.str "file" ∧
        ∃ s, s ∈ doc_types ∧ fileExtension item = some (Json.str s)) →
       item ∈ [samplePdf]) :=
  document_filter_exact [sampleDir, samplePdf] [samplePdf] (by rfl)

/-- C1: refuted on the code.  When the remote listing call suffers a
transport failure (`requests.get` raises before `response` is assigned), the
`except` handler's line 35 `if response is not None` raises
`UnboundLocalError`, so `get_public_resources` raises instead of returning
`None` and the `/files` handler ends in a 500 server error rather than a
redirect to `/` with a danger flash.  The function's own docstring promises
`None` on error, so this is a slip in the code. -/
theorem transport_error_escapes_handler :
    get_public_resources HttpOutcome.transportError =
      Except.error "UnboundLocalError" ∧
    files (some "somekey") "" "" HttpOutcome.transportError =
      FilesResult.serverError "UnboundLocalError" :=
  ⟨rfl, rfl⟩

/-- C3: a download request in which any of `public_key`, `path`, `name` is
absent or empty issues no outbound network call and results in the
missing-parameters danger flash plus redirect, whatever the network would
have answered. -/
theorem download_missing_params_no_call (public_key path name : Option String)
    (hrefOutcome byteOutcome : HttpOutcome)
    (h : optStrTruthy public_key = false ∨ optStrTruthy path = false ∨
      optStrTruthy name = false) :
    download public_key path name hrefOutcome byteOutcome =
      (DownloadResult.redirectFiles "danger", []) := by
  have hc : (optStrTruthy public_key && optStrTruthy path &&
      optStrTruthy name) = false := by
    rcases h with h | h | h <;> simp [h]
  simp [download, hc]

/-- C3 witness: a request with an absent `path` redirects with the danger
flash and performs no network call, even with both remote calls poised to
fail. -/
theorem download_missing_params_no_call_witness :
    download (some "k") none (some "a.pdf") HttpOutcome.transportError
      HttpOutcome.transportError =
      (DownloadResult.redirectFiles "danger", []) :=
  download_missing_params_no_call (some "k") none (some "a.pdf")
    HttpOutcome.transportError HttpOutcome.transportError
    (Or.inr (Or.inl rfl))

/-- C4: when the parameters are present and the remote download-href call
succeeds (2xx) but its JSON object has no `href` field or an `href` equal to
null (`data.get('href')` yields `None`), the handler flashes and redirects
after the href call alone: the byte fetch is never attempted, whatever its
outcome would have been. -/
theorem download_null_href_skips_byte_fetch
    (public_key path name : Option String) (status : Nat)
    (fields : List (String × Json)) (byteOutcome : HttpOutcome)
    (hpk : optStrTruthy public_key = true)
    (hpath : optStrTruthy path = true)
    (hname : optStrTruthy name = true)
    (hstatus : 200 ≤ status ∧ status < 300)
    (hhref : jGet fields "href" = Json.null) :
    download public_key path name
      (HttpOutcome.success status (Json.obj fields)) byteOutcome =
      (DownloadResult.redirectFiles "danger", [NetCall.hrefCall]) := by
  have hrs : raiseForStatus status = false := by
    have h4 : ¬ (400 ≤ status) := by omega
    simp [raiseForStatus, h4]
  have hdh : get_download_href
      (HttpOutcome.success status (Json.obj fields)) = Except.ok Json.null := by
    simp [get_download_href, hrs, hhref]
  simp [download, hpk, hpath, hname, hdh, Json.truthy]

/-- C4 witness: a href response of `{"href": null}` with status 200 yields
the danger redirect after only the href call. -/
theorem download_null_href_skips_byte_fetch_witness :
    download (some "k") (some "/a.pdf") (some "a.pdf")
      (HttpOutcome.success 200 (Json.obj [("href", Json.null)]))
      HttpOutcome.transportError =
      (DownloadResult.redirectFiles "danger", [NetCall.hrefCall]) :=
  download_null_href_skips_byte_fetch (some "k") (some "/a.pdf")
    (some "a.pdf") 200 [("href", Json.null)] HttpOutcome.transportError
    rfl rfl rfl (by decide) rfl

/-- C5: a successful (2xx) listing whose truthy JSON object lacks the
`_embedded` key, or whose `_embedded` object lacks the `items` key, is
treated as an empty listing: the `/files` handler renders normally with no
entries, for every filter category, signalling no error. -/
theorem files_missing_items_renders_empty (public_key : String)
    (hpk : public_key ≠ "") (path filter_type : String) (status : Nat)
    (fields : List (String × Json))
    (hstatus : 200 ≤ status ∧ status < 300)
    (htruthy : Json.truthy (Json.obj fields) = true)
    (hkey : jLookup fields "_embedded" = none ∨
      ∃ embeddedFields,
        jLookup fields "_embedded" = some (Json.obj embeddedFields) ∧
        jLookup embeddedFields "items" = none) :
    files (some public_key) path filter_type
      (HttpOutcome.success status (Json.obj fields)) =
      FilesResult.render (Json.arr []) := by
  have hrs : raiseForStatus status = false := by
    have h4 : ¬ (400 ≤ status) := by omega
    simp [raiseForStatus, h4]
  have hres : get_public_resources
      (HttpOutcome.success status (Json.obj fields)) =
      Except.ok (some (Json.obj fields)) := by
    simp [get_public_resources, hrs]
  have hpk2 : optStrTruthy (some public_key) = true := by
    simp [optStrTruthy, hpk]
  rcases hkey with hkey | ⟨embeddedFields, hkey, hitems⟩
  · simp only [files, hres, hpk2, Bool.not_true, Bool.false_eq_true,
      if_false, optJsonTruthy, htruthy, jGetD, hkey]
    by_cases hft : filter_type = "folder" ∨ filter_type = "document"
        ∨ filter_type = "image"
    · rw [if_pos hft]
      simp [jLookup, entriesOfJson, List.mapM.loop, filterItems_nil]
    · rw [if_neg hft]
      simp [jLookup]
  · simp only [files, hres, hpk2, Bool.not_true, Bool.false_eq_true,
      if_false, optJsonTruthy, htruthy, jGetD, hkey]
    by_cases hft : filter_type = "folder" ∨ filter_type = "document"
        ∨ filter_type = "image"
    · rw [if_pos hft]
      simp [jGetD, hitems, entriesOfJson, List.mapM.loop, filterItems_nil]
    · rw [if_neg hft]
      simp [jGetD, hitems]

/-- C5 witness: a 200 listing whose body is a nonempty object without
`_embedded` renders with no entries. -/
theorem files_missing_items_renders_empty_witness :
    files (some "k") "" ""
      (HttpOutcome.success 200 (Json.obj [("name", Json.str "x")])) =
      FilesResult.render (Json.arr []) :=
  files_missing_items_renders_empty "k" (by decide) "" "" 200
    [("name", Json.str "x")] (by decide) rfl (Or.inl rfl)

/-- C9: a successful (2xx) listing whose JSON body is falsy (for example the
empty object) is treated exactly like a failed listing: the `/files` handler
flashes danger and redirects to the index rather than rendering an empty
list. -/
theorem files_falsy_body_redirects (public_key : String)
    (hpk : public_key ≠ "") (path filter_type : String) (status : Nat)
    (body : Json) (hstatus : 200 ≤ status ∧ status < 300)
    (hfalsy : Json.truthy body = false) :
    files (some public_key) path filter_type
      (HttpOutcome.success status body) =
      FilesResult.redirectIndex "danger" := by
  have hrs : raiseForStatus status = false := by
    have h4 : ¬ (400 ≤ status) := by omega
    simp [raiseForStatus, h4]
  have hres : get_public_resources (HttpOutcome.success status body) =
      Except.ok (some body) := by
    simp [get_public_resources, hrs]
  have hpk2 : optStrTruthy (some public_key) = true := by
    simp [optStrTruthy, hpk]
  simp [files, hres, hpk2, optJsonTruthy, hfalsy]

/-- C9 witness: a 200 response with body `{}` redirects to the index with the
danger flash. -/
theorem files_falsy_body_redirects_witness :
    files (some "k") "" "" (HttpOutcome.success 200 (Json.obj [])) =
      FilesResult.redirectIndex "danger" :=
  files_falsy_body_redirects "k" (by decide) "" "" 200 (Json.obj [])
    (by decide) rfl
